import Mathlib

/-!
Verification of the swarmpy client library (`src/swarm/`): the LRU
identity caches, the machine-auth handshake, the streaming write
protocol, the entity proxies (Container / Switch / Interface) and the
MAC search, modelled as a shallow embedding.  HTTP and websocket
traffic is made explicit: every operation that may touch the network
takes the (parsed) response it would receive as an argument and
returns the list of requests it issued.
-/

namespace Swarm

/-! ### Bounded LRU cache (`cachetools.LRUCache`)

Cached objects are represented by identities (`Nat`), allocated by a
fresh counter held on the client.  Entries are kept most-recently-used
first.  `__contains__` does not touch the order, `__getitem__` moves
the entry to the front, `__setitem__` inserts at the front and evicts
from the least-recently-used end while the size exceeds `maxsize`. -/

/-- Association-list lookup used by the cache model. -/
def lfind {κ : Type} [DecidableEq κ] : List (κ × Nat) → κ → Option (κ × Nat)
  | [], _ => none
  | e :: es, k => if e.1 = k then some e else lfind es k

/-- Remove every binding of key `k` (keys are unique in practice). -/
def lremove {κ : Type} [DecidableEq κ] : List (κ × Nat) → κ → List (κ × Nat)
  | [], _ => []
  | e :: es, k => if e.1 = k then lremove es k else e :: lremove es k

structure LRU (κ : Type) [DecidableEq κ] where
  entries : List (κ × Nat)
  maxsize : Nat

namespace LRU

variable {κ : Type} [DecidableEq κ]

/-- The identity currently cached under `k`, if any. -/
def find (l : LRU κ) (k : κ) : Option Nat :=
  (lfind l.entries k).map (fun e => e.2)

/-- `k in cache` — membership test, does not update the LRU order. -/
def contains (l : LRU κ) (k : κ) : Bool :=
  (lfind l.entries k).isSome

/-- `cache[k] = v` — insert at the most-recent end, evicting from the
least-recent end while over capacity. -/
def put (l : LRU κ) (k : κ) (v : Nat) : LRU κ :=
  { l with entries := ((k, v) :: lremove l.entries k).take l.maxsize }

/-- `cache[k]` — return the cached identity and move it to the
most-recent end; `none` models the `KeyError` case. -/
def getMove (l : LRU κ) (k : κ) : Option Nat × LRU κ :=
  match lfind l.entries k with
  | none => (none, l)
  | some e => (some e.2, { l with entries := (k, e.2) :: lremove l.entries k })

end LRU

/-! ### Client caches (`Client.__init__`, `Client.switch/interface/container`) -/

structure ClientC where
  contCache : LRU String
  swCache : LRU String
  intfCache : LRU (String × Nat)
  nextId : Nat

namespace ClientC

/-- The cache state built by `Client.__init__`: containers 50,
switches 20, interfaces 100. -/
def init : ClientC :=
  { contCache := { entries := [], maxsize := 50 }
    swCache := { entries := [], maxsize := 20 }
    intfCache := { entries := [], maxsize := 100 }
    nextId := 0 }

/-- `Client.container(path)`: construct-on-miss, then read through the
cache (the read moves the entry to the most-recent end). -/
def containerL (c : ClientC) (p : String) : Option Nat × ClientC :=
  let c1 := if c.contCache.contains p then c
            else { c with contCache := c.contCache.put p c.nextId,
                          nextId := c.nextId + 1 }
  let r := c1.contCache.getMove p
  (r.1, { c1 with contCache := r.2 })

/-- `Client.switch(path)`. -/
def switchL (c : ClientC) (p : String) : Option Nat × ClientC :=
  let c1 := if c.swCache.contains p then c
            else { c with swCache := c.swCache.put p c.nextId,
                          nextId := c.nextId + 1 }
  let r := c1.swCache.getMove p
  (r.1, { c1 with swCache := r.2 })

/-- `Client.interface(path, index)`: first resolves the owning switch
(`sw = self.switch(path)`), then reads through the interface cache. -/
def interfaceL (c : ClientC) (p : String) (i : Nat) : Option Nat × ClientC :=
  let c1 := (c.switchL p).2
  let c2 := if c1.intfCache.contains (p, i) then c1
            else { c1 with intfCache := c1.intfCache.put (p, i) c1.nextId,
                           nextId := c1.nextId + 1 }
  let r := c2.intfCache.getMove (p, i)
  (r.1, { c2 with intfCache := r.2 })

/-- The capacities the three caches are constructed with. -/
def wf (c : ClientC) : Prop :=
  c.contCache.maxsize = 50 ∧ c.swCache.maxsize = 20 ∧ c.intfCache.maxsize = 100

instance (c : ClientC) : Decidable c.wf := by
  unfold wf; infer_instance

end ClientC

/-! ### Machine authentication (`swarm/auth.py`, `MachAuthToken.get_cookie`)

Bytes are `Nat` values below 256.  The HMAC-SHA256 primitive is an
external library (`hmac` / `hashlib`); the embedding is parameterised
over it, so the theorems hold for the real hash. -/

/-- `struct.pack(">Q", t)` — the 8-byte big-endian encoding of `t`
(valid for `t < 2^64`; larger values raise in Python). -/
def packU64BE (t : Nat) : List Nat :=
  [t / 2 ^ 56 % 256, t / 2 ^ 48 % 256, t / 2 ^ 40 % 256, t / 2 ^ 32 % 256,
   t / 2 ^ 24 % 256, t / 2 ^ 16 % 256, t / 2 ^ 8 % 256, t % 256]

/-- `endpoint.encode('ascii')` — valid for ASCII-only strings. -/
def strBytes (s : String) : List Nat := s.toList.map (fun ch => ch.toNat)

def b64Alphabet : List Char :=
  "ABCDEFGHIJKLMNOPQRSTUVWXYZabcdefghijklmnopqrstuvwxyz0123456789+/".toList

def b64Digit (n : Nat) : Char := b64Alphabet.getD n '?'

/-- `base64.b64encode` over a byte list. -/
def b64Encode : List Nat → List Char
  | [] => []
  | [a] => [b64Digit (a / 4), b64Digit (a % 4 * 16), '=', '=']
  | [a, b] => [b64Digit (a / 4), b64Digit (a % 4 * 16 + b / 16),
               b64Digit (b % 16 * 4), '=']
  | a :: b :: c :: rest =>
      b64Digit (a / 4) :: b64Digit (a % 4 * 16 + b / 16) ::
      b64Digit (b % 16 * 4 + c / 64) :: b64Digit (c % 64) :: b64Encode rest

def b64EncodeStr (bs : List Nat) : String := String.mk (b64Encode bs)

/-- `MachAuthToken` state: `key` is the already-base64-decoded secret
(the constructor decodes it), `cookie` is the memoised `_cookie` slot
(`None` initially). -/
structure MachAuthToken where
  uid : String
  key : List Nat
  endpoint : String
  cookie : Option String
deriving DecidableEq

/-- The JSON body POSTed to the authentication endpoint. -/
structure AuthPost where
  time : Nat
  target : String
  user : String
  signature : String
  algorithm : Nat
deriving DecidableEq

/-- `MachAuthError(code, text)`. -/
structure MachAuthError where
  code : Nat
  text : String
deriving DecidableEq

/-- Parsed response of the authentication POST. -/
structure AuthResp where
  status : Nat
  cookieField : String
  text : String
deriving DecidableEq

instance {ε α : Type} [DecidableEq ε] [DecidableEq α] :
    DecidableEq (Except ε α) := fun x y =>
  match x, y with
  | .ok a, .ok b =>
      if h : a = b then .isTrue (by rw [h]) else .isFalse (by simp [h])
  | .error a, .error b =>
      if h : a = b then .isTrue (by rw [h]) else .isFalse (by simp [h])
  | .ok _, .error _ => .isFalse (by simp)
  | .error _, .ok _ => .isFalse (by simp)

/-- Result of one `get_cookie()` call: the returned value or raised
error, the token state afterwards, and the POSTs that were issued. -/
structure AuthOutcome where
  result : Except MachAuthError String
  tok : MachAuthToken
  posts : List AuthPost
deriving DecidableEq

/-- `MachAuthToken.get_cookie`, parameterised over the HMAC-SHA256
primitive `hm : key → message → digest` and over the wall clock `t`
and the response `resp` of the POST (consulted only if one is
issued).  The memoisation guard is Python truthiness: `if
self._cookie:` — an empty string does not count as memoised. -/
def getCookie (hm : List Nat → List Nat → List Nat)
    (tok : MachAuthToken) (t : Nat) (resp : AuthResp) : AuthOutcome :=
  match tok.cookie with
  | some c =>
      if c ≠ "" then { result := .ok c, tok := tok, posts := [] }
      else getCookieFetch hm tok t resp
  | none => getCookieFetch hm tok t resp
where
  /-- The non-memoised path: sign, POST, then memoise on 200. -/
  getCookieFetch (hm : List Nat → List Nat → List Nat)
      (tok : MachAuthToken) (t : Nat) (resp : AuthResp) : AuthOutcome :=
    let sigblob := packU64BE t ++ strBytes tok.endpoint
    let sig := hm tok.key sigblob
    let post : AuthPost :=
      { time := t, target := tok.endpoint, user := tok.uid,
        signature := b64EncodeStr sig, algorithm := 2 }
    if resp.status = 200 then
      { result := .ok resp.cookieField,
        tok := { tok with cookie := some resp.cookieField },
        posts := [post] }
    else
      { result := .error { code := resp.status, text := resp.text },
        tok := tok, posts := [post] }

/-! ### Streamed frames and the write pipeline
(`Client._ws_request`, `Client.write`, `WriteProgress`)

A frame is the JSON dict parsed from one websocket message.  Each
field is `Option`al: `none` models an absent key, whose access raises
`KeyError`.  The `progress` field can additionally be present but
null. -/

structure Prog where
  done : Nat
  size : Nat
deriving DecidableEq

structure Frame where
  cookie : Option Nat := none
  type : Option String := none
  status : Option String := none
  reason : Option String := none
  progress : Option (Option Prog) := none
  empty : Option Bool := none
deriving DecidableEq

/-- Python values carried in a `WriteSpec`. -/
inductive Val
  | vStr (s : String)
  | vInt (n : Int)
  | vBool (b : Bool)
deriving DecidableEq

/-- One queued mutation (`Client._writespecs` element, as appended by
`Interface._setprop`). -/
structure WriteSpec where
  path : String
  «attribute» : String
  index : Nat
  value : Val
deriving DecidableEq

/-- The exceptions the embedded code can raise. -/
inductive PyErr
  | keyError (k : String)
  | zeroDiv
  | exception (msg : String)
  | exceptionFrame (f : Frame)
  | typeError (msg : String)
  | attributeError (msg : String)
  | apiError (code : Nat) (text : String)
deriving DecidableEq

namespace WriteProgress

/-- `WriteProgress.finished`: reads `dic['empty']` (KeyError when the
key is absent), compares it with `True`, then falls back to
`dic['type'] == 'reply'`. -/
def finished (f : Frame) : Except PyErr Bool :=
  match f.empty with
  | none => .error (.keyError "empty")
  | some b =>
      if b then .ok true
      else match f.type with
        | none => .error (.keyError "type")
        | some ty => .ok (ty = "reply")

/-- `WriteProgress.progress`: `dic['progress']` must be present and
non-null, else `Exception('no progress information available')`. -/
def progressOf (f : Frame) : Except PyErr Prog :=
  match f.progress with
  | none => .error (.keyError "progress")
  | some none => .error (.exception "no progress information available")
  | some (some p) => .ok p

/-- `WriteProgress.percent`: 100 when finished, otherwise
`(100 * done) / total` under Python 3 true division — the result is a
rational (float), not an integer.  Division by zero raises, and an
exception from `finished` or `progress` propagates. -/
def percent (f : Frame) : Except PyErr ℚ :=
  match finished f with
  | .error e => .error e
  | .ok true => .ok 100
  | .ok false =>
    match progressOf f with
    | .error e => .error e
    | .ok p =>
      if p.size = 0 then .error .zeroDiv
      else .ok ((100 * p.done : ℚ) / p.size)

end WriteProgress

/-- One incoming websocket message: `recv()` returning `None` or `""`
is keepalive noise; anything else parses into a frame. -/
inductive Msg
  | noise
  | frame (f : Frame)
deriving DecidableEq

/-- The body of `Client.write` on a non-empty queue: the `for x in
self._ws_request('write', args)` loop, with `_ws_request`'s receive
loop inlined.  Returns the yielded frames (each paired with the queue
state at the moment it is yielded), the final queue, and the raised
exception if any (`none` in the third slot means the generator ran to
completion; running out of messages models the code blocking on
`recv()`, which no theorem below reaches). -/
def writeLoop (wsCookie : Nat) (q0 : List WriteSpec) :
    List Msg → List (Frame × List WriteSpec) × List WriteSpec × Option PyErr
  | [] => ([], q0, some (.exception "blocked on recv"))
  | .noise :: rest => writeLoop wsCookie q0 rest
  | .frame f :: rest =>
    match f.cookie with
    | none => ([], q0, some (.keyError "cookie"))
    | some ck =>
      if ck ≠ wsCookie then ([], q0, some (.exception "Cookie mismatch"))
      else match f.type with
        | none => ([], q0, some (.keyError "type"))
        | some ty =>
          if ty = "reply" then
            match f.status with
            | none => ([], q0, some (.keyError "status"))
            | some st =>
              if st = "error" then
                match f.reason with
                | some r => ([], q0, some (.exception r))
                | none => ([], q0, some (.exceptionFrame f))
              else if st = "ok" then
                ([(f, [])], [], none)
              else
                writeLoop wsCookie q0 rest
          else if ty = "partial_reply" then
            let r := writeLoop wsCookie q0 rest
            ((f, q0) :: r.1, r.2.1, r.2.2)
          else
            writeLoop wsCookie q0 rest

/-- The synthetic `WriteProgress({"empty": True})` frame. -/
def emptyFrame : Frame := { empty := some true }

/-- Outcome of fully consuming `Client.write(commit)`: yielded frames
with the queue state at each yield, final queue, raised error, and
the streamed request that was issued (`none` when no websocket
traffic happened). -/
structure WriteOutcome where
  yields : List (Frame × List WriteSpec)
  finalQueue : List WriteSpec
  err : Option PyErr
  request : Option (List WriteSpec × Bool)
deriving DecidableEq

/-- `Client.write(commit)` consumed to completion against the
incoming message list `msgs`. -/
def clientWrite (q : List WriteSpec) (commit : Bool) (wsCookie : Nat)
    (msgs : List Msg) : WriteOutcome :=
  if q = [] then
    { yields := [(emptyFrame, q)], finalQueue := q, err := none,
      request := none }
  else
    let r := writeLoop wsCookie q msgs
    { yields := r.1, finalQueue := r.2.1, err := r.2.2,
      request := some (q, commit) }

/-! ### TimedValue (`swarm/utils.py`) and the Interface proxy
(`swarm/objects.py`, `Interface._getprop` / `Interface._setprop`) -/

/-- The raw `{value, time}` dict a remote attribute arrives as. -/
structure TSrc where
  value : Val
  time : Nat
deriving DecidableEq

/-- `TimedValue(src = ...)`: value plus observation timestamp. -/
structure TValue where
  value : Val
  time : Nat
deriving DecidableEq

def TValue.ofSrc (s : TSrc) : TValue := { value := s.value, time := s.time }

/-- Association-list lookup for string-keyed JSON objects. -/
def jlookup {α : Type} : List (String × α) → String → Option α
  | [], _ => none
  | e :: es, k => if e.1 = k then some e.2 else jlookup es k

/-- The memoised remote snapshot of an interface: the `data` dict of
the `/interfaces/{path}/{index}` response. -/
structure IntfBlob where
  data : List (String × TSrc)
deriving DecidableEq

/-- An `Interface` proxy: identity plus the lazily fetched blob. -/
structure Intf where
  path : String
  index : Nat
  blob : Option IntfBlob
deriving DecidableEq

/-- An HTTP GET that the model issued, by URL path. -/
structure GetReq where
  url : String
deriving DecidableEq

/-- Parsed response of the `/interfaces/{path}/{index}` GET. -/
structure IntfResp where
  status : Nat
  blob : IntfBlob
  text : String
deriving DecidableEq

/-- The interface attributes wired to `_setprop` by `metaprop` (the
rest are `metaprop_ro` and have no setter). -/
def writableIntfAttrs : List String :=
  ["admin_status", "alias", "vlan", "voice_vlan"]

namespace Intf

/-- `Interface._getblob`: return the memoised blob, fetching it once
when absent. -/
def getblob (i : Intf) (resp : IntfResp) :
    Except PyErr IntfBlob × Intf × List GetReq :=
  match i.blob with
  | some b => (.ok b, i, [])
  | none =>
      let req : GetReq :=
        { url := "/interfaces/" ++ i.path ++ "/" ++ toString i.index }
      if resp.status = 200 then
        (.ok resp.blob, { i with blob := some resp.blob }, [req])
      else
        (.error (.apiError resp.status resp.text), i, [req])

/-- `Interface._getprop name`: read through the blob; a present key
becomes a `TimedValue`, an absent key is `None`. -/
def getprop (name : String) (i : Intf) (resp : IntfResp) :
    Except PyErr (Option TValue) × Intf × List GetReq :=
  match getblob i resp with
  | (.ok b, i1, reqs) => (.ok ((jlookup b.data name).map TValue.ofSrc), i1, reqs)
  | (.error e, i1, reqs) => (.error e, i1, reqs)

/-- `Interface._setprop name val`: append one `WriteSpec` to the
client-wide queue; the interface (its blob included) is untouched. -/
def setprop (name : String) (q : List WriteSpec) (i : Intf) (v : Val) :
    List WriteSpec × Intf × Val :=
  (q ++ [{ path := i.path, «attribute» := name, index := i.index, value := v }],
   i, v)

end Intf

/-! ### Container proxy (`Container.save`, `Container.delete`) -/

/-- Characters the slug keeps: the regex class `[a-z0-9-_]`. -/
def isSlugChar (ch : Char) : Bool :=
  ('a' ≤ ch ∧ ch ≤ 'z') ∨ ('0' ≤ ch ∧ ch ≤ '9') ∨ ch = '-' ∨ ch = '_'

/-- Worker for the regex substitution: `inRun` records whether the
scanner is inside a non-class run whose single `-` has already been
emitted. -/
def subSlugAux : Bool → List Char → List Char
  | _, [] => []
  | inRun, c :: rest =>
    if isSlugChar c then c :: subSlugAux false rest
    else if inRun then subSlugAux true rest
    else '-' :: subSlugAux true rest

/-- `re.sub(r"[^a-z0-9-_]+", "-", s)`: every maximal run of characters
outside the class becomes a single hyphen. -/
def subSlugRuns (l : List Char) : List Char := subSlugAux false l

/-- ASCII `str.lower` (the display names involved are ASCII). -/
def asciiLower (s : String) : String :=
  String.mk (s.toList.map (fun ch =>
    if 'A' ≤ ch ∧ ch ≤ 'Z' then Char.ofNat (ch.toNat + 32) else ch))

/-- `s.split(".")[0]`: the text before the first dot. -/
def firstDotSegment (s : String) : String :=
  String.mk (s.toList.takeWhile (fun ch => ch ≠ '.'))

/-- The path suffix `Container.save` derives for a new container:
`slug = re.sub(r"[^a-z0-9-_]+", "-", display_name.split(".")[0].lower())`. -/
def containerSlug (displayName : String) : String :=
  String.mk (subSlugRuns (asciiLower (firstDotSegment displayName)).toList)

/-- A `Container` proxy.  Pending changes are the `__changes` dict
(string-valued for the attributes involved here). -/
structure Cont where
  path : String
  blob : Option (List (String × String))
  changes : List (String × String)
  new : Bool
deriving DecidableEq

/-- An HTTP POST the model issued: URL path and body. -/
structure PostReq where
  url : String
  body : List (String × String)
deriving DecidableEq

/-- Parsed response of the container POST. -/
structure ContResp where
  status : Nat
  blob : List (String × String)
  text : String
deriving DecidableEq

namespace Cont

/-- `Container.save`: a new container derives its path from
`display_name` (raising when it is unset), then POSTs the pending
changes; 201/303 adopt the new path and drop the blob, 200 adopts the
returned snapshot, anything else raises `APIException`. -/
def save (c : Cont) (resp : ContResp) :
    Except PyErr Bool × Cont × List PostReq :=
  match
    (if c.new then
      match jlookup c.changes "display_name" with
      | none => none
      | some dn => some (c.path ++ "." ++ containerSlug dn)
     else some c.path) with
  | none =>
      (.error (.exception "New containers require at least a display_name"),
       c, [])
  | some path1 =>
    let req : PostReq := { url := "/containers/" ++ path1, body := c.changes }
    if resp.status = 201 ∨ resp.status = 303 then
      (.ok true, { c with blob := none, changes := [], path := path1 }, [req])
    else if resp.status = 200 then
      (.ok true, { c with blob := some resp.blob, changes := [], path := path1 },
       [req])
    else
      (.error (.apiError resp.status resp.text), c, [req])

/-- `Container.delete`: the guard reads `self.__children` — i.e. the
name-mangled attribute `_Container__children`, which is assigned
nowhere in the class (`children` is a property under a different
name) — so the attribute lookup raises `AttributeError` before any
DELETE request is issued, for every container. -/
def delete (_c : Cont) : Except PyErr Bool × List GetReq :=
  (.error (.attributeError
    "Container object has no attribute _Container__children"), [])

end Cont

/-! ### Switch proxy (`Switch.status`, `Switch.progress`,
`Switch.interfaces`) -/

/-- A `Switch` proxy.  `new` is the `new=True` constructor flag,
cleared only by a successful `save()`. -/
structure Sw where
  path : String
  blob : Option (List (String × String))
  changes : List (String × String)
  new : Bool
deriving DecidableEq

/-- Parsed response of the `/switches/{path}/status` GET: the
`status` object with its `status` timed value and `progress` timed
pair. -/
structure SwStatusResp where
  status : Nat
  statusSrc : TSrc
  progDone : Nat
  progSize : Nat
  progTime : Nat
  text : String
deriving DecidableEq

/-- Parsed response of the `/switches/{path}/interfaces` GET: the
interface index list. -/
structure SwIntfsResp where
  status : Nat
  indices : List Nat
  text : String
deriving DecidableEq

/-- A `TimedValue` holding a `(done, total)` progress pair. -/
structure TValuePair where
  value : Nat × Nat
  time : Nat
deriving DecidableEq

namespace Sw

/-- `Switch.status`: `None` for a new switch (no request), otherwise a
fresh GET of `/switches/{path}/status` on every access. -/
def statusProp (s : Sw) (resp : SwStatusResp) :
    Except PyErr (Option TValue) × List GetReq :=
  if s.new then (.ok none, [])
  else
    let req : GetReq := { url := "/switches/" ++ s.path ++ "/status" }
    if resp.status = 200 then (.ok (some (TValue.ofSrc resp.statusSrc)), [req])
    else (.error (.apiError resp.status resp.text), [req])

/-- `Switch.progress`: `None` for a new switch (no request), otherwise
a fresh GET of `/switches/{path}/status` on every access. -/
def progressProp (s : Sw) (resp : SwStatusResp) :
    Except PyErr (Option TValuePair) × List GetReq :=
  if s.new then (.ok none, [])
  else
    let req : GetReq := { url := "/switches/" ++ s.path ++ "/status" }
    if resp.status = 200 then
      (.ok (some { value := (resp.progDone, resp.progSize),
                   time := resp.progTime }), [req])
    else (.error (.apiError resp.status resp.text), [req])

/-- `Switch.interfaces`: the empty list for a new switch (no request),
otherwise a GET of `/switches/{path}/interfaces` with each index
resolved through the client's interface cache. -/
def interfacesProp (s : Sw) (c : ClientC) (resp : SwIntfsResp) :
    Except PyErr (List (Option Nat)) × ClientC × List GetReq :=
  if s.new then (.ok [], c, [])
  else
    let req : GetReq := { url := "/switches/" ++ s.path ++ "/interfaces" }
    if resp.status = 200 then
      let step := fun (acc : List (Option Nat) × ClientC) (idx : Nat) =>
        let r := acc.2.interfaceL s.path idx
        (acc.1 ++ [r.1], r.2)
      let (objs, c1) := resp.indices.foldl step ([], c)
      (.ok objs, c1, [req])
    else (.error (.apiError resp.status resp.text), c, [req])

end Sw

/-! ### MAC search (`Client.mac_search`) -/

/-- One entry of the `/macs/{fragment}` response's `interfaces`
array. -/
structure MacEntry where
  path : String
  index : Nat
  time : Nat
  mac : String
deriving DecidableEq

/-- Parsed response of the `/macs/{fragment}` GET. -/
structure MacResp where
  status : Nat
  entries : List MacEntry
  text : String
deriving DecidableEq

/-- The sort key ordering `intfs.sort(key = lambda x: (x['path'],
x['index']))` uses: lexicographic on the pair. -/
def macEntryLe (a b : MacEntry) : Bool :=
  a.path < b.path ∨ (a.path = b.path ∧ a.index ≤ b.index)

def macInsert (x : MacEntry) : List MacEntry → List MacEntry
  | [] => [x]
  | y :: ys => if macEntryLe x y then x :: y :: ys else y :: macInsert x ys

/-- Stable ascending sort by `(path, index)`. -/
def macSort : List MacEntry → List MacEntry
  | [] => []
  | x :: xs => macInsert x (macSort xs)

/-- The fields a constructed `MACNeighbour` would carry. -/
structure MACNb where
  path : String
  index : Nat
  stamp : Nat
  mac : String
deriving DecidableEq

/-- The call `MACNeighbour(intf, i['time'], i['mac'])` in
`Client.mac_search`: the class's `__init__(self, client, intf, stamp,
mac)` takes four required positional arguments and only three are
supplied, so the call raises `TypeError` before the body runs. -/
def mkMACNeighbour3 (_intfArg : Option Nat) (_stampArg : Nat)
    (_macArg : String) : Except PyErr MACNb :=
  .error (.typeError
    "MACNeighbour.__init__ missing 1 required positional argument: mac")

/-- The loop of `Client.mac_search`: resolve each entry's interface
through the cache, then construct the `MACNeighbour`. -/
def macLoop (c : ClientC) : List MacEntry → Except PyErr (List MACNb) × ClientC
  | [] => (.ok [], c)
  | e :: rest =>
    let r1 := c.interfaceL e.path e.index
    match mkMACNeighbour3 r1.1 e.time e.mac with
    | .error err => (.error err, r1.2)
    | .ok n =>
      let r2 := macLoop r1.2 rest
      match r2.1 with
      | .ok ns => (.ok (n :: ns), r2.2)
      | .error err => (.error err, r2.2)

/-- `Client.mac_search(fragment)`: one GET, sort by `(path, index)`,
then resolve and wrap each entry. -/
def macSearch (c : ClientC) (fragment : String) (resp : MacResp) :
    Except PyErr (List MACNb) × ClientC × List GetReq :=
  let req : GetReq := { url := "/macs/" ++ fragment }
  if resp.status = 200 then
    let r := macLoop c (macSort resp.entries)
    (r.1, r.2, [req])
  else
    (.error (.apiError resp.status resp.text), c, [req])

/-! ### Predicates over the streamed protocol -/

/-- A message the receive loop passes over without terminating:
keepalive noise, or a correctly-correlated partial reply. -/
def benignMsg (wsCookie : Nat) (m : Msg) : Prop :=
  m = .noise ∨ ∃ f, m = .frame f ∧ f.cookie = some wsCookie ∧
    f.type = some "partial_reply"

/-- The frames carried by a message list (noise dropped). -/
def partialFrames : List Msg → List Frame
  | [] => []
  | .noise :: rest => partialFrames rest
  | .frame f :: rest => f :: partialFrames rest

/-! ### Concrete fixtures used by the witnesses and counterexamples -/

/-- A stand-in HMAC function for concrete witnesses (the theorems are
universally quantified over the primitive). -/
def hmDemo : List Nat → List Nat → List Nat := fun _ _ => [7]

/-- A concrete fresh token (no memoised cookie). -/
def authTok0 : MachAuthToken :=
  { uid := "m1", key := [115, 101, 99], endpoint := "swarm.example.org",
    cookie := none }

def authRespOk : AuthResp := { status := 200, cookieField := "abc123", text := "" }

def authRespErr : AuthResp := { status := 403, cookieField := "", text := "denied" }

/-- A 200 reply whose `cookie` field is the empty string. -/
def authResp200Empty : AuthResp := { status := 200, cookieField := "", text := "" }

/-- Concrete frames for the C3 witness: one partial reply, a terminal
ok reply, and a terminal error reply carrying a reason. -/
def partialF0 : Frame :=
  { cookie := some 1, type := some "partial_reply",
    progress := some (some { done := 1, size := 2 }) }

def okF0 : Frame := { cookie := some 1, type := some "reply", status := some "ok" }

def errF0 : Frame :=
  { cookie := some 1, type := some "reply", status := some "error",
    reason := some "switch unreachable" }

def queue0 : List WriteSpec :=
  [{ path := "b80", «attribute» := "vlan", index := 9, value := .vInt 100 },
   { path := "b80", «attribute» := "alias", index := 10, value := .vStr "ap" }]

/-- The partial-progress frame `(done, total) = (1, 8)` used to
separate true division from integer division. -/
def partialF8 : Frame :=
  { cookie := some 1, type := some "partial_reply", empty := some false,
    progress := some (some { done := 1, size := 8 }) }

/-- The concrete interface used by the C6 witness: blob memoised with
`vlan = 5` observed at time 111. -/
def intfBlob0 : IntfBlob := { data := [("vlan", { value := .vInt 5, time := 111 })] }

def intf0 : Intf := { path := "b80", index := 9, blob := some intfBlob0 }

/-- A response the memoised read never consults. -/
def intfRespUnused : IntfResp := { status := 500, blob := { data := [] }, text := "x" }

/-- The brand-new container of the C7 scenario: parent path `a.b`,
pending `display_name = "My Lab!!"`. -/
def cont0 : Cont :=
  { path := "a.b", blob := none,
    changes := [("display_name", "My Lab!!")], new := true }

def contResp201 : ContResp := { status := 201, blob := [], text := "" }

/-- A 200 MAC-search response with one unsorted pair of entries. -/
def macResp0 : MacResp :=
  { status := 200,
    entries := [{ path := "x", index := 2, time := 5, mac := "aa:bb:cc:00:11:22" },
                { path := "a", index := 7, time := 6, mac := "aa:bb:cc:33:44:55" }],
    text := "" }

/-- The unsaved switch `Container.new_switch()` would produce. -/
def swNew : Sw := { path := "eait", blob := none, changes := [], new := true }

def swStatusResp0 : SwStatusResp :=
  { status := 200, statusSrc := { value := .vStr "ok", time := 7 },
    progDone := 1, progSize := 2, progTime := 7, text := "" }

def swIntfsResp0 : SwIntfsResp := { status := 200, indices := [1, 2], text := "" }

/-! ## Lemmas about the LRU cache -/

theorem lfind_cons_self {κ : Type} [DecidableEq κ] (es : List (κ × Nat))
    (k : κ) (v : Nat) : lfind ((k, v) :: es) k = some (k, v) := by
  simp [lfind]

theorem lfind_key {κ : Type} [DecidableEq κ] (es : List (κ × Nat)) (k : κ)
    (e : κ × Nat) (h : lfind es k = some e) : e.1 = k := by
  induction es with
  | nil => simp [lfind] at h
  | cons a es ih =>
    rw [lfind] at h
    by_cases ha : a.1 = k
    · rw [if_pos ha] at h
      cases h; exact ha
    · rw [if_neg ha] at h
      exact ih h

namespace LRU

variable {κ : Type} [DecidableEq κ]

theorem find_put_self (l : LRU κ) (k : κ) (v : Nat) (h : 1 ≤ l.maxsize) :
    (l.put k v).find k = some v := by
  obtain ⟨m, hm⟩ : ∃ m, l.maxsize = m + 1 :=
    ⟨l.maxsize - 1, by omega⟩
  unfold put find
  simp only [hm, List.take_succ_cons, lfind_cons_self]
  rfl

theorem getMove_of_find (l : LRU κ) (k : κ) (v : Nat) (h : l.find k = some v) :
    l.getMove k =
      (some v, { l with entries := (k, v) :: lremove l.entries k }) := by
  unfold find at h
  cases hf : lfind l.entries k with
  | none => rw [hf] at h; simp at h
  | some e =>
    rw [hf] at h
    have hv : e.2 = v := by
      cases e; cases h; rfl
    unfold getMove
    rw [hf]
    simp [hv]

theorem contains_of_find (l : LRU κ) (k : κ) (v : Nat)
    (h : l.find k = some v) : l.contains k = true := by
  unfold find at h
  unfold contains
  cases hf : lfind l.entries k with
  | none => rw [hf] at h; simp at h
  | some e => simp

theorem find_getMove (l : LRU κ) (k : κ) (v : Nat) (h : l.find k = some v) :
    ((l.getMove k).2).find k = some v := by
  rw [getMove_of_find l k v h]
  unfold find
  simp [lfind_cons_self]

/-- The construct-on-miss pattern shared by the three `Client`
lookups: after the miss check and the read-through, the key is bound
to a definite identity that a repeated read returns again. -/
theorem ensure_getMove (l : LRU κ) (k : κ) (fresh : Nat) (h : 1 ≤ l.maxsize) :
    ∃ v, ((if l.contains k then l else l.put k fresh).getMove k).1 = some v ∧
      (((if l.contains k then l else l.put k fresh).getMove k).2).find k
        = some v := by
  cases hf : lfind l.entries k with
  | some e =>
    have hc : l.contains k = true := by unfold contains; rw [hf]; rfl
    have hfind : l.find k = some e.2 := by unfold find; rw [hf]; rfl
    refine ⟨e.2, ?_, ?_⟩
    · rw [if_pos hc, getMove_of_find l k e.2 hfind]
    · rw [if_pos hc]
      exact find_getMove l k e.2 hfind
  | none =>
    have hc : ¬ (l.contains k = true) := by unfold contains; rw [hf]; simp
    have hfind : (l.put k fresh).find k = some fresh := find_put_self l k fresh h
    refine ⟨fresh, ?_, ?_⟩
    · rw [if_neg hc, getMove_of_find _ k fresh hfind]
    · rw [if_neg hc]
      exact find_getMove _ k fresh hfind

end LRU

/-! ## Lemmas about the client lookups -/

namespace ClientC

theorem switchL_intfCache (c : ClientC) (p : String) :
    ((c.switchL p).2).intfCache = c.intfCache := by
  unfold switchL
  by_cases h : c.swCache.contains p = true
  · rw [if_pos h]
  · rw [if_neg h]

theorem containerL_eq_hit (c : ClientC) (p : String)
    (hc : c.contCache.contains p = true) :
    c.containerL p = ((c.contCache.getMove p).1,
      { c with contCache := (c.contCache.getMove p).2 }) := by
  unfold containerL
  rw [if_pos hc]

theorem containerL_eq_miss (c : ClientC) (p : String)
    (hc : ¬ (c.contCache.contains p = true)) :
    c.containerL p = (((c.contCache.put p c.nextId).getMove p).1,
      { c with contCache := ((c.contCache.put p c.nextId).getMove p).2,
               nextId := c.nextId + 1 }) := by
  unfold containerL
  rw [if_neg hc]

/-- `Client.container(path)`: the lookup returns a definite object
identity, and that identity stays bound to the path in the resulting
cache state. -/
theorem containerL_hit (c : ClientC) (p : String) (h : 1 ≤ c.contCache.maxsize) :
    ∃ v, (c.containerL p).1 = some v ∧
      ((c.containerL p).2).contCache.find p = some v := by
  cases hf : lfind c.contCache.entries p with
  | some e =>
    have hc : c.contCache.contains p = true := by
      unfold LRU.contains; rw [hf]; rfl
    have hfind : c.contCache.find p = some e.2 := by
      unfold LRU.find; rw [hf]; rfl
    refine ⟨e.2, ?_, ?_⟩
    · rw [containerL_eq_hit c p hc]
      show (c.contCache.getMove p).1 = some e.2
      rw [LRU.getMove_of_find _ _ _ hfind]
    · rw [containerL_eq_hit c p hc]
      show ((c.contCache.getMove p).2).find p = some e.2
      exact LRU.find_getMove _ _ _ hfind
  | none =>
    have hc : ¬ (c.contCache.contains p = true) := by
      unfold LRU.contains; rw [hf]; simp
    have hfind : (c.contCache.put p c.nextId).find p = some c.nextId :=
      LRU.find_put_self _ _ _ h
    refine ⟨c.nextId, ?_, ?_⟩
    · rw [containerL_eq_miss c p hc]
      show ((c.contCache.put p c.nextId).getMove p).1 = some c.nextId
      rw [LRU.getMove_of_find _ _ _ hfind]
    · rw [containerL_eq_miss c p hc]
      show (((c.contCache.put p c.nextId).getMove p).2).find p = some c.nextId
      exact LRU.find_getMove _ _ _ hfind

/-- A path whose entry is still cached resolves to the identical
object: `Client.container` on a cache hit. -/
theorem containerL_of_find (c : ClientC) (p : String) (v : Nat)
    (h : c.contCache.find p = some v) : (c.containerL p).1 = some v := by
  rw [containerL_eq_hit c p (LRU.contains_of_find _ _ _ h)]
  show (c.contCache.getMove p).1 = some v
  rw [LRU.getMove_of_find _ _ _ h]

theorem switchL_eq_hit (c : ClientC) (p : String)
    (hc : c.swCache.contains p = true) :
    c.switchL p = ((c.swCache.getMove p).1,
      { c with swCache := (c.swCache.getMove p).2 }) := by
  unfold switchL
  rw [if_pos hc]

theorem switchL_eq_miss (c : ClientC) (p : String)
    (hc : ¬ (c.swCache.contains p = true)) :
    c.switchL p = (((c.swCache.put p c.nextId).getMove p).1,
      { c with swCache := ((c.swCache.put p c.nextId).getMove p).2,
               nextId := c.nextId + 1 }) := by
  unfold switchL
  rw [if_neg hc]

theorem switchL_hit (c : ClientC) (p : String) (h : 1 ≤ c.swCache.maxsize) :
    ∃ v, (c.switchL p).1 = some v ∧
      ((c.switchL p).2).swCache.find p = some v := by
  cases hf : lfind c.swCache.entries p with
  | some e =>
    have hc : c.swCache.contains p = true := by
      unfold LRU.contains; rw [hf]; rfl
    have hfind : c.swCache.find p = some e.2 := by
      unfold LRU.find; rw [hf]; rfl
    refine ⟨e.2, ?_, ?_⟩
    · rw [switchL_eq_hit c p hc]
      show (c.swCache.getMove p).1 = some e.2
      rw [LRU.getMove_of_find _ _ _ hfind]
    · rw [switchL_eq_hit c p hc]
      show ((c.swCache.getMove p).2).find p = some e.2
      exact LRU.find_getMove _ _ _ hfind
  | none =>
    have hc : ¬ (c.swCache.contains p = true) := by
      unfold LRU.contains; rw [hf]; simp
    have hfind : (c.swCache.put p c.nextId).find p = some c.nextId :=
      LRU.find_put_self _ _ _ h
    refine ⟨c.nextId, ?_, ?_⟩
    · rw [switchL_eq_miss c p hc]
      show ((c.swCache.put p c.nextId).getMove p).1 = some c.nextId
      rw [LRU.getMove_of_find _ _ _ hfind]
    · rw [switchL_eq_miss c p hc]
      show (((c.swCache.put p c.nextId).getMove p).2).find p = some c.nextId
      exact LRU.find_getMove _ _ _ hfind

theorem switchL_of_find (c : ClientC) (p : String) (v : Nat)
    (h : c.swCache.find p = some v) : (c.switchL p).1 = some v := by
  rw [switchL_eq_hit c p (LRU.contains_of_find _ _ _ h)]
  show (c.swCache.getMove p).1 = some v
  rw [LRU.getMove_of_find _ _ _ h]

theorem interfaceL_eq_hit (c : ClientC) (p : String) (i : Nat)
    (hc : c.intfCache.contains (p, i) = true) :
    c.interfaceL p i = ((c.intfCache.getMove (p, i)).1,
      { (c.switchL p).2 with intfCache := (c.intfCache.getMove (p, i)).2 }) := by
  unfold interfaceL
  simp only []
  rw [switchL_intfCache c p, if_pos hc]
  rw [switchL_intfCache c p]

theorem interfaceL_eq_miss (c : ClientC) (p : String) (i : Nat)
    (hc : ¬ (c.intfCache.contains (p, i) = true)) :
    c.interfaceL p i =
      (((c.intfCache.put (p, i) ((c.switchL p).2).nextId).getMove (p, i)).1,
       { (c.switchL p).2 with
         intfCache :=
           ((c.intfCache.put (p, i) ((c.switchL p).2).nextId).getMove (p, i)).2,
         nextId := ((c.switchL p).2).nextId + 1 }) := by
  unfold interfaceL
  simp only []
  rw [switchL_intfCache c p, if_neg hc]

theorem interfaceL_hit (c : ClientC) (p : String) (i : Nat)
    (h : 1 ≤ c.intfCache.maxsize) :
    ∃ v, (c.interfaceL p i).1 = some v ∧
      ((c.interfaceL p i).2).intfCache.find (p, i) = some v := by
  cases hf : lfind c.intfCache.entries (p, i) with
  | some e =>
    have hc : c.intfCache.contains (p, i) = true := by
      unfold LRU.contains; rw [hf]; rfl
    have hfind : c.intfCache.find (p, i) = some e.2 := by
      unfold LRU.find; rw [hf]; rfl
    refine ⟨e.2, ?_, ?_⟩
    · rw [interfaceL_eq_hit c p i hc]
      show (c.intfCache.getMove (p, i)).1 = some e.2
      rw [LRU.getMove_of_find _ _ _ hfind]
    · rw [interfaceL_eq_hit c p i hc]
      show ((c.intfCache.getMove (p, i)).2).find (p, i) = some e.2
      exact LRU.find_getMove _ _ _ hfind
  | none =>
    have hc : ¬ (c.intfCache.contains (p, i) = true) := by
      unfold LRU.contains; rw [hf]; simp
    have hfind :
        (c.intfCache.put (p, i) ((c.switchL p).2).nextId).find (p, i)
          = some ((c.switchL p).2).nextId :=
      LRU.find_put_self _ _ _ h
    refine ⟨((c.switchL p).2).nextId, ?_, ?_⟩
    · rw [interfaceL_eq_miss c p i hc]
      show ((c.intfCache.put (p, i) ((c.switchL p).2).nextId).getMove (p, i)).1
        = some ((c.switchL p).2).nextId
      rw [LRU.getMove_of_find _ _ _ hfind]
    · rw [interfaceL_eq_miss c p i hc]
      show (((c.intfCache.put (p, i) ((c.switchL p).2).nextId).getMove
        (p, i)).2).find (p, i) = some ((c.switchL p).2).nextId
      exact LRU.find_getMove _ _ _ hfind

theorem interfaceL_of_find (c : ClientC) (p : String) (i : Nat) (v : Nat)
    (h : c.intfCache.find (p, i) = some v) :
    (c.interfaceL p i).1 = some v := by
  rw [interfaceL_eq_hit c p i (LRU.contains_of_find _ _ _ h)]
  show (c.intfCache.getMove (p, i)).1 = some v
  rw [LRU.getMove_of_find _ _ _ h]

end ClientC

/-! ## Claim theorems -/

/-- Claim C1: the client's three lookups (`container(p)`, `switch(p)`,
`interface(p, i)`) are backed by bounded LRU caches of capacity 50,
20 and 100; a lookup binds the key to a definite object identity, and
any later lookup of an equal key returns the identical object,
provided the cache still holds that entry (i.e. it has not been
evicted in between). -/
theorem claim_C1_cache_identity :
    ClientC.init.wf ∧
    (∀ c p, c.wf → ∃ v, (ClientC.containerL c p).1 = some v ∧
        ((ClientC.containerL c p).2).contCache.find p = some v) ∧
    (∀ c p v, c.contCache.find p = some v →
        (ClientC.containerL c p).1 = some v) ∧
    (∀ c p, c.wf → ∃ v, (ClientC.switchL c p).1 = some v ∧
        ((ClientC.switchL c p).2).swCache.find p = some v) ∧
    (∀ c p v, c.swCache.find p = some v →
        (ClientC.switchL c p).1 = some v) ∧
    (∀ c p i, c.wf → ∃ v, (ClientC.interfaceL c p i).1 = some v ∧
        ((ClientC.interfaceL c p i).2).intfCache.find (p, i) = some v) ∧
    (∀ c p i v, c.intfCache.find (p, i) = some v →
        (ClientC.interfaceL c p i).1 = some v) := by
  refine ⟨⟨rfl, rfl, rfl⟩, ?_, ?_, ?_, ?_, ?_, ?_⟩
  · intro c p hwf
    exact ClientC.containerL_hit c p (by rw [hwf.1]; omega)
  · intro c p v h
    exact ClientC.containerL_of_find c p v h
  · intro c p hwf
    exact ClientC.switchL_hit c p (by rw [hwf.2.1]; omega)
  · intro c p v h
    exact ClientC.switchL_of_find c p v h
  · intro c p i hwf
    exact ClientC.interfaceL_hit c p i (by rw [hwf.2.2]; omega)
  · intro c p i v h
    exact ClientC.interfaceL_of_find c p i v h

/-- Witness for C1: on a fresh client, a repeated container, switch
and interface lookup each return the object the first lookup
created. -/
theorem claim_C1_cache_identity_witness :
    (((ClientC.init.containerL "eait").2).containerL "eait").1 = some 0 ∧
    (((ClientC.init.switchL "b80").2).switchL "b80").1 = some 0 ∧
    (((ClientC.init.interfaceL "b80" 9).2).interfaceL "b80" 9).1 = some 1 :=
  ⟨claim_C1_cache_identity.2.2.1 _ "eait" 0 (by decide),
   claim_C1_cache_identity.2.2.2.2.1 _ "b80" 0 (by decide),
   claim_C1_cache_identity.2.2.2.2.2.2 _ "b80" 9 1 (by decide)⟩

/-- Claim C2 (amended): on a fresh call the POSTed body carries
`time t`, `target endpoint`, `user uid`, `algorithm 2` and
`signature = base64(HMAC-SHA256(key, pack_u64be(t) ++ endpoint))`;
a 200 reply returns and memoises the `cookie` field, and a memoised
**non-empty** cookie is returned by later calls with no further POST;
a non-200 reply raises `MachAuthError` with the status and body, and
memoises nothing. -/
theorem claim_C2_auth_handshake (hm : List Nat → List Nat → List Nat)
    (tok : MachAuthToken) (t : Nat) (resp : AuthResp) :
    (tok.cookie = none →
      (getCookie hm tok t resp).posts =
        [{ time := t, target := tok.endpoint, user := tok.uid,
           signature :=
             b64EncodeStr (hm tok.key (packU64BE t ++ strBytes tok.endpoint)),
           algorithm := 2 }]) ∧
    (tok.cookie = none → resp.status = 200 →
      (getCookie hm tok t resp).result = .ok resp.cookieField ∧
      (getCookie hm tok t resp).tok.cookie = some resp.cookieField) ∧
    (∀ s, s ≠ "" → tok.cookie = some s →
      getCookie hm tok t resp = { result := .ok s, tok := tok, posts := [] }) ∧
    (tok.cookie = none → resp.status ≠ 200 →
      (getCookie hm tok t resp).result
        = .error { code := resp.status, text := resp.text } ∧
      (getCookie hm tok t resp).tok = tok) := by
  refine ⟨?_, ?_, ?_, ?_⟩
  · intro hnone
    by_cases h200 : resp.status = 200 <;>
      simp [getCookie, getCookie.getCookieFetch, hnone, h200]
  · intro hnone h200
    constructor <;> simp [getCookie, getCookie.getCookieFetch, hnone, h200]
  · intro s hs hsome
    simp [getCookie, hsome, hs]
  · intro hnone h200
    constructor <;> simp [getCookie, getCookie.getCookieFetch, hnone, h200]

/-- Witness for C2: a fresh token against a 200 reply carrying
`abc123` signs and POSTs once, returns `abc123`, and with the memo in
place a later call returns it with no POST; a 403 reply raises the
error carrying status and body. -/
theorem claim_C2_auth_handshake_witness :
    (getCookie hmDemo authTok0 1000 authRespOk).posts =
      [{ time := 1000, target := "swarm.example.org", user := "m1",
         signature :=
           b64EncodeStr (hmDemo authTok0.key
             (packU64BE 1000 ++ strBytes "swarm.example.org")),
         algorithm := 2 }] ∧
    (getCookie hmDemo authTok0 1000 authRespOk).result = .ok "abc123" ∧
    getCookie hmDemo { authTok0 with cookie := some "abc123" } 1000 authRespOk
      = { result := .ok "abc123",
          tok := { authTok0 with cookie := some "abc123" }, posts := [] } ∧
    (getCookie hmDemo authTok0 1000 authRespErr).result
      = .error { code := 403, text := "denied" } :=
  ⟨(claim_C2_auth_handshake hmDemo authTok0 1000 authRespOk).1 rfl,
   ((claim_C2_auth_handshake hmDemo authTok0 1000 authRespOk).2.1 rfl rfl).1,
   (claim_C2_auth_handshake hmDemo { authTok0 with cookie := some "abc123" }
     1000 authRespOk).2.2.1 "abc123" (by decide) rfl,
   ((claim_C2_auth_handshake hmDemo authTok0 1000 authRespErr).2.2.2 rfl
     (by decide)).1⟩

/-- Counterexample to C2 as stated: when the 200 reply's `cookie`
field is the empty string, the value is assigned to `_cookie` but the
truthiness guard `if self._cookie:` does not treat it as memoised, so
the next `cookie()` call issues a second POST. -/
theorem claim_C2_counterexample :
    (getCookie hmDemo authTok0 1000 authResp200Empty).result = .ok "" ∧
    (getCookie hmDemo authTok0 1000 authResp200Empty).tok.cookie = some "" ∧
    (getCookie hmDemo
      ((getCookie hmDemo authTok0 1000 authResp200Empty).tok)
      1000 authResp200Empty).posts.length = 1 := by
  refine ⟨?_, ?_, ?_⟩ <;> decide

/-! ## Lemmas about the write loop -/

theorem writeLoop_benign (ck : Nat) (q : List WriteSpec) (pre rest : List Msg)
    (h : ∀ m ∈ pre, benignMsg ck m) :
    writeLoop ck q (pre ++ rest) =
      ((partialFrames pre).map (fun f => (f, q)) ++ (writeLoop ck q rest).1,
       (writeLoop ck q rest).2.1, (writeLoop ck q rest).2.2) := by
  induction pre with
  | nil => simp [partialFrames]
  | cons m pre ih =>
    have hrest : ∀ x ∈ pre, benignMsg ck x := fun x hx => h x (by simp [hx])
    have hm : benignMsg ck m := h m (by simp)
    cases hm with
    | inl hnoise =>
      subst hnoise
      rw [List.cons_append]
      rw [show writeLoop ck q (.noise :: (pre ++ rest))
            = writeLoop ck q (pre ++ rest) from rfl]
      rw [ih hrest]
      simp [partialFrames]
    | inr hframe =>
      obtain ⟨f, hmf, hck, hty⟩ := hframe
      subst hmf
      rw [List.cons_append]
      rw [writeLoop, hck, hty]
      simp only [ne_eq, reduceIte, String.reduceEq, eq_self_iff_true, not_true,
        ite_false]
      rw [ih hrest]
      simp [partialFrames]

theorem writeLoop_ok (ck : Nat) (q : List WriteSpec) (f : Frame)
    (hck : f.cookie = some ck) (hty : f.type = some "reply")
    (hst : f.status = some "ok") :
    writeLoop ck q [.frame f] = ([(f, [])], [], none) := by
  rw [show ([Msg.frame f] : List Msg) = .frame f :: [] from rfl]
  rw [writeLoop, hck, hty, hst]
  simp only [ne_eq, reduceIte, String.reduceEq, eq_self_iff_true, not_true,
    ite_false]

theorem writeLoop_err (ck : Nat) (q : List WriteSpec) (f : Frame)
    (hck : f.cookie = some ck) (hty : f.type = some "reply")
    (hst : f.status = some "error") :
    writeLoop ck q [.frame f] =
      ([], q, some (match f.reason with
                    | some r => .exception r
                    | none => .exceptionFrame f)) := by
  rw [show ([Msg.frame f] : List Msg) = .frame f :: [] from rfl]
  rw [writeLoop, hck, hty, hst]
  simp only [ne_eq, reduceIte, String.reduceEq, eq_self_iff_true, not_true,
    ite_false]
  cases f.reason <;> rfl

/-- Claim C3: with a non-empty pending queue, `write()` clears the
queue exactly when the terminal `reply/ok` frame is observed — every
earlier `partial_reply` yield still sees the original queue — and a
terminal `reply/error` frame raises the server-supplied `reason` (or
the whole frame when there is none) leaving the queue unchanged for a
retry. -/
theorem claim_C3_write_terminal (q : List WriteSpec) (commit : Bool) (ck : Nat)
    (pre : List Msg) (f : Frame)
    (hq : q ≠ [])
    (hpre : ∀ m ∈ pre, benignMsg ck m)
    (hck : f.cookie = some ck) (hty : f.type = some "reply") :
    (f.status = some "ok" →
      clientWrite q commit ck (pre ++ [.frame f]) =
        { yields := (partialFrames pre).map (fun pf => (pf, q)) ++ [(f, [])],
          finalQueue := [], err := none, request := some (q, commit) }) ∧
    (f.status = some "error" →
      clientWrite q commit ck (pre ++ [.frame f]) =
        { yields := (partialFrames pre).map (fun pf => (pf, q)),
          finalQueue := q,
          err := some (match f.reason with
                       | some r => .exception r
                       | none => .exceptionFrame f),
          request := some (q, commit) }) := by
  constructor
  · intro hst
    unfold clientWrite
    rw [if_neg hq]
    rw [writeLoop_benign ck q pre [.frame f] hpre, writeLoop_ok ck q f hck hty hst]
  · intro hst
    unfold clientWrite
    rw [if_neg hq]
    rw [writeLoop_benign ck q pre [.frame f] hpre, writeLoop_err ck q f hck hty hst]
    simp

/-- Witness for C3: two queued writes against one partial reply and a
terminal ok reply clear the queue only at the ok yield; the same
queue against a terminal error reply keeps the queue and surfaces the
reason. -/
theorem claim_C3_write_terminal_witness :
    clientWrite queue0 false 1 [.frame partialF0, .noise, .frame okF0] =
      { yields := [(partialF0, queue0), (okF0, [])], finalQueue := [],
        err := none, request := some (queue0, false) } ∧
    clientWrite queue0 false 1 [.frame partialF0, .noise, .frame errF0] =
      { yields := [(partialF0, queue0)], finalQueue := queue0,
        err := some (.exception "switch unreachable"),
        request := some (queue0, false) } := by
  have hpre : ∀ m ∈ ([.frame partialF0, .noise] : List Msg), benignMsg 1 m := by
    intro m hm
    rcases List.mem_cons.mp hm with h | hm2
    · subst h; right; exact ⟨partialF0, rfl, rfl, rfl⟩
    · rcases List.mem_cons.mp hm2 with h | h3
      · subst h; left; rfl
      · exact absurd h3 (List.not_mem_nil m)
  constructor
  · have h := (claim_C3_write_terminal queue0 false 1 [.frame partialF0, .noise]
      okF0 (by decide) hpre rfl rfl).1 rfl
    simpa [partialFrames] using h
  · have h := (claim_C3_write_terminal queue0 false 1 [.frame partialF0, .noise]
      errF0 (by decide) hpre rfl rfl).2 rfl
    simpa [partialFrames] using h

/-- Claim C4: `write()` on an empty pending queue yields exactly one
progress frame, that frame's `finished` is true, and no HTTP or
streamed request is issued. -/
theorem claim_C4_write_empty_queue (commit : Bool) (ck : Nat) (msgs : List Msg) :
    clientWrite [] commit ck msgs =
      { yields := [(emptyFrame, [])], finalQueue := [], err := none,
        request := none } ∧
    (clientWrite [] commit ck msgs).yields.length = 1 ∧
    WriteProgress.finished emptyFrame = .ok true := by
  refine ⟨?_, ?_, rfl⟩ <;> simp [clientWrite]

/-- Claim C5 (amended): `percent` of a finished `WriteProgress` is
100 regardless of the progress fields; on an unfinished frame with
progress `(done, total)`, `total ≠ 0`, it is the Python 3 true
division `100 * done / total` — an exact fraction, not the truncated
integer quotient. -/
theorem claim_C5_percent (f : Frame) :
    (WriteProgress.finished f = .ok true →
      WriteProgress.percent f = .ok 100) ∧
    (∀ d s, WriteProgress.finished f = .ok false →
      f.progress = some (some { done := d, size := s }) → s ≠ 0 →
      WriteProgress.percent f = .ok ((100 * d : ℚ) / s)) := by
  constructor
  · intro hfin
    unfold WriteProgress.percent
    rw [hfin]
  · intro d s hfin hprog hs
    unfold WriteProgress.percent
    rw [hfin]
    unfold WriteProgress.progressOf
    rw [hprog]
    simp only []
    rw [if_neg hs]

/-- Witness for C5: the synthetic finished frame reports 100; the
unfinished `(1, 8)` frame reports `100 / 8`. -/
theorem claim_C5_percent_witness :
    WriteProgress.percent emptyFrame = .ok 100 ∧
    WriteProgress.percent partialF8 = .ok ((100 * (1 : Nat) : ℚ) / (8 : Nat)) :=
  ⟨(claim_C5_percent emptyFrame).1 (by decide),
   (claim_C5_percent partialF8).2 1 8 (by decide) (by decide) (by decide)⟩

/-- Counterexample to C5 as stated: on the unfinished `(1, 8)` frame
the code returns `12.5` (`100 * 1 / 8` under true division), not the
truncating integer quotient `12` the claim asserts — the `/` in
`(100 * done) / total` is Python 3 float division. -/
theorem claim_C5_counterexample :
    WriteProgress.percent partialF8 = .ok ((25 : ℚ) / 2) ∧
    ((25 : ℚ) / 2) ≠ (((100 * 1) / 8 : Nat) : ℚ) := by
  constructor
  · rw [show WriteProgress.percent partialF8
        = .ok ((100 * ((1 : Nat) : ℚ)) / ((8 : Nat) : ℚ)) from rfl]
    norm_num
  · norm_num

/-- Claim C6: setting a writable attribute on an interface with a
memoised blob appends exactly one `WriteSpec {path, attribute, index,
value}` to the client-wide queue, leaves the interface (and its blob)
untouched, and a re-read of the same attribute before the flush
returns the stale value from the memoised blob — independent of the
pending value — with no request issued. -/
theorem claim_C6_interface_write_stale (q : List WriteSpec) (i : Intf)
    (b : IntfBlob) (name : String) (v : Val) (resp : IntfResp)
    (hb : i.blob = some b) (_hw : name ∈ writableIntfAttrs) :
    (Intf.setprop name q i v).1 =
      q ++ [{ path := i.path, «attribute» := name, index := i.index,
              value := v }] ∧
    (Intf.setprop name q i v).2.1 = i ∧
    Intf.getprop name ((Intf.setprop name q i v).2.1) resp =
      (.ok ((jlookup b.data name).map TValue.ofSrc), i, []) := by
  refine ⟨rfl, rfl, ?_⟩
  show Intf.getprop name i resp = _
  unfold Intf.getprop Intf.getblob
  rw [hb]

/-- Witness for C6: queueing `vlan := 100` on `b80/9` appends one
WriteSpec, and the immediate re-read still returns the remote value 5
with no request. -/
theorem claim_C6_interface_write_stale_witness :
    (Intf.setprop "vlan" [] intf0 (.vInt 100)).1 =
      [{ path := "b80", «attribute» := "vlan", index := 9,
         value := .vInt 100 }] ∧
    Intf.getprop "vlan" ((Intf.setprop "vlan" [] intf0 (.vInt 100)).2.1)
      intfRespUnused
      = (.ok (some { value := .vInt 5, time := 111 }), intf0, []) := by
  have h := claim_C6_interface_write_stale [] intf0 intfBlob0 "vlan"
    (.vInt 100) intfRespUnused rfl (by decide)
  exact ⟨h.1, h.2.2⟩

/-- Claim C7 (amended): `save()` on a new container with
`display_name` set POSTs its pending changes to
`/containers/{parent}.{slug}` where the slug lower-cases the first
dot-segment of the display name and replaces every run of characters
outside `[a-z0-9-_]` with one hyphen (so `"My Lab!!"` yields
`"my-lab-"`, hyphen included); with no `display_name` it raises
without POSTing. -/
theorem claim_C7_container_save_slug (c : Cont) (resp : ContResp) (dn : String)
    (hnew : c.new = true) :
    (jlookup c.changes "display_name" = some dn →
      (Cont.save c resp).2.2 =
        [{ url := "/containers/" ++ (c.path ++ "." ++ containerSlug dn),
           body := c.changes }]) ∧
    (jlookup c.changes "display_name" = none →
      Cont.save c resp =
        (.error (.exception "New containers require at least a display_name"),
         c, [])) := by
  constructor
  · intro hdn
    simp only [Cont.save, hnew, hdn, reduceIte]
    split
    · rfl
    · split <;> rfl
  · intro hdn
    simp only [Cont.save, hnew, hdn, reduceIte]

/-- Witness for C7: the scenario container POSTs once to the slugged
path, and the same container without a display name raises. -/
theorem claim_C7_container_save_slug_witness :
    (Cont.save cont0 contResp201).2.2 =
      [{ url := "/containers/" ++ "a.b" ++ "." ++ containerSlug "My Lab!!",
         body := cont0.changes }] ∧
    Cont.save { cont0 with changes := [] } contResp201 =
      (.error (.exception "New containers require at least a display_name"),
       { cont0 with changes := [] }, []) :=
  ⟨(claim_C7_container_save_slug cont0 contResp201 "My Lab!!" rfl).1 (by decide),
   (claim_C7_container_save_slug { cont0 with changes := [] } contResp201 "x"
     rfl).2 (by decide)⟩

/-- Counterexample to C7 as stated: the derived suffix for
`"My Lab!!"` is `"my-lab-"` — the trailing run `!!` also becomes a
hyphen — so the POST goes to `/containers/a.b.my-lab-`, not the
claimed `/containers/a.b.my-lab`. -/
theorem claim_C7_counterexample :
    containerSlug "My Lab!!" = "my-lab-" ∧
    (Cont.save cont0 contResp201).2.2 =
      [{ url := "/containers/a.b.my-lab-", body := cont0.changes }] ∧
    "/containers/a.b.my-lab-" ≠ "/containers/a.b.my-lab" := by
  refine ⟨by decide, by decide, by decide⟩

theorem macInsert_ne_nil (x : MacEntry) (l : List MacEntry) :
    macInsert x l ≠ [] := by
  cases l with
  | nil => simp [macInsert]
  | cons y ys =>
    unfold macInsert
    split <;> simp

/-- Claim C8 (code bug): on a 200 MAC-search response with at least
one entry, the loop body `MACNeighbour(intf, i['time'], i['mac'])`
passes three positional arguments to an `__init__` that requires four
(`client, intf, stamp, mac`), so `mac_search` raises `TypeError`
after issuing its single GET instead of returning wrapped
neighbours. -/
theorem claim_C8_mac_search_type_error (c : ClientC) (fragment : String)
    (resp : MacResp) (h200 : resp.status = 200) (hne : resp.entries ≠ []) :
    (macSearch c fragment resp).1 =
      .error (.typeError
        "MACNeighbour.__init__ missing 1 required positional argument: mac") ∧
    (macSearch c fragment resp).2.2 = [{ url := "/macs/" ++ fragment }] := by
  obtain ⟨e, rest, hsort⟩ : ∃ e rest, macSort resp.entries = e :: rest := by
    cases hE : resp.entries with
    | nil => exact absurd hE hne
    | cons a as =>
      cases hS : macSort (a :: as) with
      | nil =>
        exfalso
        have h0 : macInsert a (macSort as) = [] := by
          rw [show macInsert a (macSort as) = macSort (a :: as) from rfl]
          exact hS
        exact macInsert_ne_nil a (macSort as) h0
      | cons e rest => exact ⟨e, rest, rfl⟩
  refine ⟨?_, ?_⟩ <;>
    (unfold macSearch
     simp only []
     rw [if_pos h200, hsort]
     try simp [macLoop, mkMACNeighbour3])

/-- Witness for C8: the concrete search issues its GET and raises the
TypeError. -/
theorem claim_C8_mac_search_type_error_witness :
    (macSearch ClientC.init "aabb" macResp0).1 =
      .error (.typeError
        "MACNeighbour.__init__ missing 1 required positional argument: mac") ∧
    (macSearch ClientC.init "aabb" macResp0).2.2 = [{ url := "/macs/aabb" }] :=
  ⟨(claim_C8_mac_search_type_error ClientC.init "aabb" macResp0 rfl
      (by decide)).1,
   (claim_C8_mac_search_type_error ClientC.init "aabb" macResp0 rfl
      (by decide)).2⟩

/-- Claim C9 (code bug): `Container.delete` reads `self.__children`,
an attribute that is never assigned anywhere in the class, so every
call — children or not — raises `AttributeError` before any DELETE
request is issued; the child-free DELETE/410 path is unreachable. -/
theorem claim_C9_container_delete_attribute_error (c : Cont) :
    Cont.delete c =
      (.error (.attributeError
        "Container object has no attribute _Container__children"), []) := rfl

/-- Claim C10: a switch constructed with `new=True` and not yet saved
reports `status = None`, `progress = None` and `interfaces = []`,
each without issuing any HTTP request. -/
theorem claim_C10_new_switch_locals (s : Sw) (c : ClientC)
    (r1 : SwStatusResp) (r2 : SwIntfsResp) (hnew : s.new = true) :
    Sw.statusProp s r1 = (.ok none, []) ∧
    Sw.progressProp s r1 = (.ok none, []) ∧
    Sw.interfacesProp s c r2 = (.ok [], c, []) := by
  refine ⟨?_, ?_, ?_⟩ <;>
    simp [Sw.statusProp, Sw.progressProp, Sw.interfacesProp, hnew]

/-- Witness for C10: the concrete unsaved switch returns the local
answers with no requests. -/
theorem claim_C10_new_switch_locals_witness :
    Sw.statusProp swNew swStatusResp0 = (.ok none, []) ∧
    Sw.progressProp swNew swStatusResp0 = (.ok none, []) ∧
    Sw.interfacesProp swNew ClientC.init swIntfsResp0 =
      (.ok [], ClientC.init, []) :=
  claim_C10_new_switch_locals swNew ClientC.init swStatusResp0 swIntfsResp0 rfl

end Swarm
